import Mathlib

/-!
Shallow embedding of `src/resilience.py`: the ordered-rule-table lexer
(`Lexer.tokenize`) and the two recursive-descent parsers
(`TokenConstraintParser`, `TokenPatternParser`).

Modelling conventions:
- Input text is a `List Char`; every regex of `TOKEN_TYPES` is embedded as a
  prefix matcher `List Char → Option (List Char)` returning the matched
  lexeme, mirroring Python `pattern.match(text, pos)` at the head of the
  remaining text (ASCII interpretation of `\s`, `\w`, `\d`).
- A token is a `(kind, lexeme)` pair of strings, as in the source.
- Raised `SyntaxError`s become `Except.error` carrying the message string.
- The mutable parser cursor (`current_token` plus the not-yet-consumed rest
  of the token list) becomes an explicit `List Token` threaded through each
  production; the head of the list is `current_token`.
- The mutually recursive productions take a fuel argument (the Python code
  terminates because every cycle through the grammar consumes a token; fuel
  makes that termination explicit).  Top-level entry points supply ample
  fuel.
- Python `None`, returned by `token_constraint` for an empty bracket `[]`,
  is embedded as the distinguished AST constructor `AST.NONE` (the node the
  specification calls `NoConstraint`).
-/

/-- Python `\s` (ASCII part): the characters matched by the WHITESPACE rule. -/
def isSpaceChar (c : Char) : Bool :=
  c == ' ' || c == '\t' || c == '\n' || c == '\r' || c == '\x0b' || c == '\x0c'

/-- Python `\w` (ASCII part): word characters, used by the bare-word branch of the STRING rule. -/
def isWordChar (c : Char) : Bool :=
  c.isAlphanum || c == '_'

/-- The single-quote character, used by the second alternative of the STRING rule. -/
def squote : Char := Char.ofNat 39

/-- Matcher for the rule `\s+`: the maximal nonempty run of whitespace. -/
def matchWhitespace (cs : List Char) : Option (List Char) :=
  match cs.takeWhile isSpaceChar with
  | [] => none
  | r => some r

/-- Matcher for a single-character rule such as `\[` or `&`. -/
def matchChar (c : Char) : List Char → Option (List Char)
  | d :: _ => if d == c then some [c] else none
  | [] => none

/-- The alternatives of the WORD rule, in source order. -/
def KEYWORDS : List String :=
  ["word", "lemma", "tag", "entity", "chunk", "incoming", "outgoing", "mention"]

/-- Regex alternation over literal alternatives: the first alternative that is a
prefix of the remaining text wins (Python tries alternatives left to right). -/
def matchAlts : List String → List Char → Option (List Char)
  | [], _ => none
  | k :: ks, cs => if k.toList.isPrefixOf cs then some k.toList else matchAlts ks cs

/-- Matcher for the WORD rule `word|lemma|tag|entity|chunk|incoming|outgoing|mention`. -/
def matchWord (cs : List Char) : Option (List Char) :=
  matchAlts KEYWORDS cs

/-- Scan for the closing quote of a lazy `.*?` quoted body: the match ends at the
first closing quote, and `.` cannot cross a newline.  Returns the body plus the
closing quote. -/
def scanQuoted (q : Char) : List Char → Option (List Char)
  | [] => none
  | c :: cs =>
    if c == q then some [q]
    else if c == '\n' then none
    else
      match scanQuoted q cs with
      | some r => some (c :: r)
      | none => none

/-- Matcher for one quoted alternative of the STRING rule (`\".*?\"` or `\x27.*?\x27`);
the returned lexeme includes both quote characters, as `match.group()` does. -/
def matchQuoted (q : Char) : List Char → Option (List Char)
  | c :: cs =>
    if c == q then
      match scanQuoted q cs with
      | some r => some (q :: r)
      | none => none
    else none
  | [] => none

/-- Matcher for the bare-word alternative `\w+` of the STRING rule. -/
def matchWordRun (cs : List Char) : Option (List Char) :=
  match cs.takeWhile isWordChar with
  | [] => none
  | r => some r

/-- Matcher for the STRING rule `\".*?\"|\x27.*?\x27|\w+`, alternatives tried in order. -/
def matchString (cs : List Char) : Option (List Char) :=
  match matchQuoted '"' cs with
  | some r => some r
  | none =>
    match matchQuoted squote cs with
    | some r => some r
    | none => matchWordRun cs

/-- Matcher for the NUMBER rule `\d+`. -/
def matchNumber (cs : List Char) : Option (List Char) :=
  match cs.takeWhile Char.isDigit with
  | [] => none
  | r => some r

/-- Matcher for a multi-character literal rule such as `\(\?<`. -/
def matchLit (p : List Char) (cs : List Char) : Option (List Char) :=
  if p.isPrefixOf cs then some p else none

/-- Matcher for the CAPTURE_START rule `\(\?<`. -/
def matchCaptureStart (cs : List Char) : Option (List Char) :=
  matchLit ['(', '?', '<'] cs

/-- Matcher for the LOOKAHEAD_START rule `\(\?=|\(\?!`. -/
def matchLookaheadStart (cs : List Char) : Option (List Char) :=
  match matchLit ['(', '?', '='] cs with
  | some r => some r
  | none => matchLit ['(', '?', '!'] cs

/-- A token is a (kind, lexeme) pair, as in the source. -/
abbrev Token := String × String

/-- The ordered lexical rule table `TOKEN_TYPES`, in the insertion order of the
Python dict (iteration order is insertion order). -/
def TOKEN_TYPES : List (String × (List Char → Option (List Char))) :=
  [ ("WHITESPACE", matchWhitespace),
    ("LBRACKET", matchChar '['),
    ("RBRACKET", matchChar ']'),
    ("LPAREN", matchChar '('),
    ("RPAREN", matchChar ')'),
    ("AND", matchChar '&'),
    ("OR", matchChar '|'),
    ("NOT", matchChar '!'),
    ("EQUALS", matchChar '='),
    ("STAR", matchChar '*'),
    ("PLUS", matchChar '+'),
    ("QUESTION", matchChar '?'),
    ("WORD", matchWord),
    ("STRING", matchString),
    ("NUMBER", matchNumber),
    ("AT", matchChar '@'),
    ("COLON", matchChar ':'),
    ("CAPTURE_START", matchCaptureStart),
    ("CAPTURE_END", matchChar ')'),
    ("START_ASSERT", matchChar '^'),
    ("END_ASSERT", matchChar '$'),
    ("LOOKAHEAD_START", matchLookaheadStart),
    ("LOOKAHEAD_END", matchChar ')') ]

/-- The inner `for token_type, regex in TOKEN_TYPES.items()` loop of
`Lexer.tokenize`: try the rules in table order and return the first match. -/
def firstMatchAux : List (String × (List Char → Option (List Char))) → List Char →
    Option (String × List Char)
  | [], _ => none
  | (k, m) :: rs, cs =>
    match m cs with
    | some l => some (k, l)
    | none => firstMatchAux rs cs

/-- First-match-by-table-order lexing step at the current position. -/
def firstMatch (cs : List Char) : Option (String × List Char) :=
  firstMatchAux TOKEN_TYPES cs

/-- The `while pos < len(text)` loop of `Lexer.tokenize`: repeatedly take the
first matching rule, skip WHITESPACE matches, and advance past the lexeme.
When no rule matches, raise `SyntaxError("Unknown character: " + c)` exactly as
the source does (the position is not part of the error).  Fuel only bounds the
iteration count; every real match consumes at least one character. -/
def tokenizeAux : Nat → List Char → Except String (List Token)
  | _, [] => .ok []
  | 0, _ :: _ => .error "out of fuel"
  | f+1, c :: cs =>
    match firstMatch (c :: cs) with
    | some (k, lex) =>
      (match tokenizeAux f ((c :: cs).drop lex.length) with
       | .ok ts => if k == "WHITESPACE" then .ok ts else .ok ((k, String.mk lex) :: ts)
       | .error e => .error e)
    | none => .error ("Unknown character: ".push c)

/-- `Lexer.tokenize` on a whole input string. -/
def tokenize (s : String) : Except String (List Token) :=
  tokenizeAux (s.toList.length + 1) s.toList

/-- AST nodes: the tagged tuples built by the parsers.  `NONE` embeds the Python
`None` returned by `token_constraint` for an empty bracket (the node the
specification names `NoConstraint`). -/
inductive AST where
  | FIELD (name : String) (matcher : AST)
  | EXACT (literal : String)
  | AND (l r : AST)
  | OR (l r : AST)
  | NOT (x : AST)
  | SEQ (elems : List AST)
  | QUANT (inner : AST) (q : String)
  | MENTION (m : Option AST)
  | CAPTURE (name : String) (inner : AST)
  | NONE

/-- Result type of a production: the parsed node and the not-yet-consumed tokens. -/
abbrev PRes := Except String (AST × List Token)

/-- `TokenConstraintParser.eat`: check the current token kind and advance. -/
def eat (k : String) : List Token → Except String (List Token)
  | t :: ts => if t.1 == k then .ok ts else .error ("Expected " ++ k ++ " but got " ++ t.1)
  | [] => .error ("Expected " ++ k ++ " but got EOF")

/-- `TokenConstraintParser.string_matcher`: an EXACT node holding the raw lexeme
of the STRING token (for a quoted string this lexeme includes the quotes). -/
def stringMatcher : List Token → PRes
  | (k, lex) :: ts =>
    if k == "STRING" then .ok (.EXACT lex, ts) else .error "Expected string"
  | [] => .error "Expected string"

/-- `TokenConstraintParser.field_constraint`: `FieldName = StringMatcher`.
Only ever invoked with a WORD token at the head (Python would hit a `TypeError`
reading `current_token[1]` on an empty stream; that dead branch is an error here). -/
def fieldConstraint : List Token → PRes
  | (k, lex) :: ts =>
    if k == "WORD" then
      match eat "EQUALS" ts with
      | .ok ts1 =>
        (match stringMatcher ts1 with
         | .ok (m, ts2) => .ok (.FIELD lex m, ts2)
         | .error e => .error e)
      | .error e => .error e
    else .error ("Expected WORD but got " ++ k)
  | [] => .error "Expected WORD but got EOF"

/-- `TokenPatternParser.mention_token_pattern`: `@` with an optional string matcher. -/
def mentionTokenPattern (ts : List Token) : PRes :=
  match eat "AT" ts with
  | .ok ts1 =>
    (match ts1 with
     | (k, _) :: _ =>
       if k == "STRING" then
         match stringMatcher ts1 with
         | .ok (m, ts2) => .ok (.MENTION (some m), ts2)
         | .error e => .error e
       else .ok (.MENTION none, ts1)
     | [] => .ok (.MENTION none, ts1))
  | .error e => .error e

/-- Test used by the concatenation loop of `concatenated_token_pattern`: does the
current token start a quantified atomic pattern. -/
def startsAtomic : List Token → Bool
  | (k, _) :: _ =>
    k == "WORD" || k == "LPAREN" || k == "AT" || k == "CAPTURE_START" || k == "LBRACKET"
  | [] => false

/-- Error used when a fueled production runs out of fuel; never reached for the
fuel supplied by the top-level entry points. -/
def fuelErr : String := "out of fuel"

mutual

/-- `TokenConstraintParser.token_constraint`: `[ [DisjunctiveConstraint] ]`;
an empty bracket yields `AST.NONE` (Python `None`). -/
def tokenConstraint : Nat → List Token → PRes
  | 0, _ => .error fuelErr
  | f+1, ts =>
    match eat "LBRACKET" ts with
    | .error e => .error e
    | .ok ts1 =>
      match ts1 with
      | (k, x) :: ts2 =>
        if k == "RBRACKET" then
          (match eat "RBRACKET" ts1 with
           | .ok ts3 => .ok (.NONE, ts3)
           | .error e => .error e)
        else
          (match disjunctiveConstraint f ((k, x) :: ts2) with
           | .ok (c, ts3) =>
             (match eat "RBRACKET" ts3 with
              | .ok ts4 => .ok (c, ts4)
              | .error e => .error e)
           | .error e => .error e)
      | [] =>
        (match eat "RBRACKET" ts1 with
         | .ok ts3 => .ok (.NONE, ts3)
         | .error e => .error e)

/-- `TokenConstraintParser.disjunctive_constraint`: a ConjunctiveConstraint
followed by the while-OR loop. -/
def disjunctiveConstraint : Nat → List Token → PRes
  | 0, _ => .error fuelErr
  | f+1, ts =>
    match conjunctiveConstraint f ts with
    | .ok (l, ts1) => disjLoop f l ts1
    | .error e => .error e

/-- The `while current_token == OR` loop of `disjunctive_constraint`, folding
left into nested OR nodes. -/
def disjLoop : Nat → AST → List Token → PRes
  | 0, _, _ => .error fuelErr
  | f+1, left, (k, x) :: ts =>
    if k == "OR" then
      match conjunctiveConstraint f ts with
      | .ok (r, ts1) => disjLoop f (.OR left r) ts1
      | .error e => .error e
    else .ok (left, (k, x) :: ts)
  | _+1, left, [] => .ok (left, [])

/-- `TokenConstraintParser.conjunctive_constraint`: a NegatedConstraint followed
by the while-AND loop. -/
def conjunctiveConstraint : Nat → List Token → PRes
  | 0, _ => .error fuelErr
  | f+1, ts =>
    match negatedConstraint f ts with
    | .ok (l, ts1) => conjLoop f l ts1
    | .error e => .error e

/-- The `while current_token == AND` loop of `conjunctive_constraint`, folding
left into nested AND nodes. -/
def conjLoop : Nat → AST → List Token → PRes
  | 0, _, _ => .error fuelErr
  | f+1, left, (k, x) :: ts =>
    if k == "AND" then
      match negatedConstraint f ts with
      | .ok (r, ts1) => conjLoop f (.AND left r) ts1
      | .error e => .error e
    else .ok (left, (k, x) :: ts)
  | _+1, left, [] => .ok (left, [])

/-- `TokenConstraintParser.negated_constraint`: `[!] AtomicConstraint`; the NOT
node always wraps the result of `atomic_constraint`. -/
def negatedConstraint : Nat → List Token → PRes
  | 0, _ => .error fuelErr
  | f+1, (k, x) :: ts =>
    if k == "NOT" then
      match atomicConstraint f ts with
      | .ok (a, ts1) => .ok (.NOT a, ts1)
      | .error e => .error e
    else atomicConstraint f ((k, x) :: ts)
  | f+1, [] => atomicConstraint f []

/-- `TokenConstraintParser.atomic_constraint`: a FieldConstraint or a
parenthesised DisjunctiveConstraint. -/
def atomicConstraint : Nat → List Token → PRes
  | 0, _ => .error fuelErr
  | f+1, (k, x) :: ts =>
    if k == "WORD" then fieldConstraint ((k, x) :: ts)
    else if k == "LPAREN" then
      match disjunctiveConstraint f ts with
      | .ok (d, ts1) =>
        (match eat "RPAREN" ts1 with
         | .ok ts2 => .ok (d, ts2)
         | .error e => .error e)
      | .error e => .error e
    else .error "Expected FieldConstraint or nested DisjunctiveConstraint"
  | _+1, [] => .error "Expected FieldConstraint or nested DisjunctiveConstraint"

/-- `TokenPatternParser.disjunctive_token_pattern`: a ConcatenatedTokenPattern
followed by the while-OR loop. -/
def disjunctiveTokenPattern : Nat → List Token → PRes
  | 0, _ => .error fuelErr
  | f+1, ts =>
    match concatenatedTokenPattern f ts with
    | .ok (l, ts1) => disjTPLoop f l ts1
    | .error e => .error e

/-- The `while current_token == OR` loop of `disjunctive_token_pattern`. -/
def disjTPLoop : Nat → AST → List Token → PRes
  | 0, _, _ => .error fuelErr
  | f+1, left, (k, x) :: ts =>
    if k == "OR" then
      match concatenatedTokenPattern f ts with
      | .ok (r, ts1) => disjTPLoop f (.OR left r) ts1
      | .error e => .error e
    else .ok (left, (k, x) :: ts)
  | _+1, left, [] => .ok (left, [])

/-- `TokenPatternParser.concatenated_token_pattern`: collect quantified atomic
patterns while the next token can start one; a single collected element is
returned bare, two or more are wrapped in a SEQ node. -/
def concatenatedTokenPattern : Nat → List Token → PRes
  | 0, _ => .error fuelErr
  | f+1, ts =>
    match quantifiedTokenPattern f ts with
    | .ok (p, ts1) =>
      (match concatGather f [p] ts1 with
       | .ok (ps, rest) =>
         (match ps with
          | [x] => .ok (x, rest)
          | _ => .ok (.SEQ ps, rest))
       | .error e => .error e)
    | .error e => .error e

/-- The collection loop of `concatenated_token_pattern`: append further
quantified atomic patterns while the lookahead token can start one. -/
def concatGather : Nat → List AST → List Token → Except String (List AST × List Token)
  | 0, _, _ => .error fuelErr
  | f+1, acc, ts =>
    if startsAtomic ts then
      match quantifiedTokenPattern f ts with
      | .ok (p, ts1) => concatGather f (acc ++ [p]) ts1
      | .error e => .error e
    else .ok (acc, ts)

/-- `TokenPatternParser.quantified_token_pattern`: an AtomicTokenPattern with an
optional `*`, `+` or `?` quantifier. -/
def quantifiedTokenPattern : Nat → List Token → PRes
  | 0, _ => .error fuelErr
  | f+1, ts =>
    match atomicTokenPattern f ts with
    | .ok (a, ts1) =>
      (match ts1 with
       | (k, q) :: ts2 =>
         if k == "STAR" || k == "PLUS" || k == "QUESTION" then .ok (.QUANT a q, ts2)
         else .ok (a, (k, q) :: ts2)
       | [] => .ok (a, []))
    | .error e => .error e

/-- `TokenPatternParser.atomic_token_pattern`: dispatch on the current token
kind over the five alternatives. -/
def atomicTokenPattern : Nat → List Token → PRes
  | 0, _ => .error fuelErr
  | f+1, (k, x) :: ts =>
    if k == "WORD" then fieldConstraint ((k, x) :: ts)
    else if k == "LBRACKET" then tokenConstraint f ((k, x) :: ts)
    else if k == "LPAREN" then
      match disjunctiveTokenPattern f ts with
      | .ok (p, ts1) =>
        (match eat "RPAREN" ts1 with
         | .ok ts2 => .ok (p, ts2)
         | .error e => .error e)
      | .error e => .error e
    else if k == "AT" then mentionTokenPattern ((k, x) :: ts)
    else if k == "CAPTURE_START" then captureTokenPattern f ((k, x) :: ts)
    else .error ("Unexpected token " ++ x ++ " in AtomicTokenPattern")
  | _+1, [] => .error "Unexpected token EOF in AtomicTokenPattern"

/-- `TokenPatternParser.capture_token_pattern`: `(?<` identifier `>` pattern `)`.
Its first step eats a CAPTURE_START token. -/
def captureTokenPattern : Nat → List Token → PRes
  | 0, _ => .error fuelErr
  | f+1, ts =>
    match eat "CAPTURE_START" ts with
    | .error e => .error e
    | .ok ts1 =>
      match ts1 with
      | (_, name) :: _ =>
        (match eat "STRING" ts1 with
         | .error e => .error e
         | .ok ts2 =>
           match eat "CAPTURE_END" ts2 with
           | .error e => .error e
           | .ok ts3 =>
             match disjunctiveTokenPattern f ts3 with
             | .ok (p, ts4) => .ok (.CAPTURE name p, ts4)
             | .error e => .error e)
      | [] => .error "TypeError: NoneType is not subscriptable"

end

/-- Ample fuel for a token list: the recursion of the parsers descends at most a
few levels per consumed token. -/
def fuelFor (ts : List Token) : Nat := 8 * ts.length + 8

/-- The full pipeline of the example usage: lex the input, then run
`TokenPatternParser.parse_token_pattern` (which is `disjunctive_token_pattern`);
whatever tokens the top production leaves unconsumed are dropped, exactly as in
the source. -/
def parseTokenPatternTop (s : String) : Except String AST :=
  match tokenize s with
  | .ok ts =>
    (match disjunctiveTokenPattern (fuelFor ts) ts with
     | .ok (a, _) => .ok a
     | .error e => .error e)
  | .error e => .error e

/-- `TokenConstraintParser.parse` run on a whole input string: lex, then
`token_constraint`, dropping leftover tokens just as the source does. -/
def parseConstraintTop (s : String) : Except String AST :=
  match tokenize s with
  | .ok ts =>
    (match tokenConstraint (fuelFor ts) ts with
     | .ok (a, _) => .ok a
     | .error e => .error e)
  | .error e => .error e

/-- Test whether the head of the remaining tokens has the given kind (the
condition of the while loops of the binary-operator productions). -/
def headIsKind (k : String) : List Token → Bool
  | t :: _ => t.1 == k
  | [] => false

/-- Boolean success test for a parse result. -/
def isOk {α : Type} : Except String α → Bool
  | .ok _ => true
  | .error _ => false

/-- C1 (amended): the parse entry point performs no end-of-input check.  If the
lexed tokens have a prefix that parses as a complete token pattern, the
trailing unconsumed tokens are silently ignored and the prefix AST is returned
with no error. -/
theorem c1_trailing_tokens_ignored : ∀ (s : String) (ts : List Token) (a : AST)
    (rest : List Token), tokenize s = .ok ts →
    disjunctiveTokenPattern (fuelFor ts) ts = .ok (a, rest) → rest ≠ [] →
    parseTokenPatternTop s = .ok a := by
  intro s ts a rest h1 h2 _
  simp only [parseTokenPatternTop, h1, h2]

/-- C1 (counterexample): the input `[]]` has a stray `]` after a well-formed
bracketed constraint, yet the parse succeeds and returns an AST instead of
producing an error. -/
theorem c1_trailing_bracket_parses :
    parseTokenPatternTop "[]]" = .ok .NONE ∧
    tokenize "[]]" = .ok [("LBRACKET", "["), ("RBRACKET", "]"), ("RBRACKET", "]")] :=
  ⟨rfl, rfl⟩

/-- C1 (witness): instantiation of the amended theorem at the input `[]]`,
whose third token is left unconsumed. -/
theorem c1_trailing_tokens_ignored_witness : parseTokenPatternTop "[]]" = .ok .NONE :=
  c1_trailing_tokens_ignored "[]]"
    [("LBRACKET", "["), ("RBRACKET", "]"), ("RBRACKET", "]")] .NONE
    [("RBRACKET", "]")] rfl rfl (by simp)

/-- C2 (amended): parsing `[word="hello" & lemma="greet"]` yields
And(Field(word, Exact), Field(lemma, Exact)) where each EXACT literal is the
raw lexeme of the STRING token, which still includes the surrounding quote
characters. -/
theorem c2_parse_hello_greet_quoted :
    parseTokenPatternTop "[word=\"hello\" & lemma=\"greet\"]" =
      .ok (.AND (.FIELD "word" (.EXACT "\"hello\"")) (.FIELD "lemma" (.EXACT "\"greet\""))) :=
  rfl

/-- C2 (counterexample): the parse of `[word="hello" & lemma="greet"]` produces
EXACT literals that keep the quote characters, and that AST differs from the
claimed AST whose literals are the bare words `hello` and `greet`. -/
theorem c2_literal_keeps_quotes_counterexample :
    parseTokenPatternTop "[word=\"hello\" & lemma=\"greet\"]" =
      .ok (.AND (.FIELD "word" (.EXACT "\"hello\"")) (.FIELD "lemma" (.EXACT "\"greet\""))) ∧
    AST.AND (.FIELD "word" (.EXACT "\"hello\"")) (.FIELD "lemma" (.EXACT "\"greet\"")) ≠
      AST.AND (.FIELD "word" (.EXACT "hello")) (.FIELD "lemma" (.EXACT "greet")) := by
  refine ⟨rfl, ?_⟩
  intro h
  injection h with h1 h2
  injection h1 with hn hm
  injection hm with hl
  exact absurd hl (by decide)

/-- C4 (amended): when no lexical rule matches at the current scan position,
tokenization fails with an error whose message names the offending character;
the position is not part of the error. -/
theorem c4_lex_error_names_char : ∀ (f : Nat) (c : Char) (rest : List Char),
    firstMatch (c :: rest) = none →
    tokenizeAux (f+1) (c :: rest) = .error ("Unknown character: ".push c) := by
  intro f c rest h
  simp only [tokenizeAux]
  rw [h]

/-- C4 (counterexample): the inputs `%` and `*%` fail at offending positions 0
and 1 respectively, yet produce the identical error value, so the error cannot
identify the position of the offending character. -/
theorem c4_lex_error_position_missing :
    tokenize "%" = .error "Unknown character: %" ∧
    tokenize "*%" = .error "Unknown character: %" :=
  ⟨rfl, rfl⟩

/-- C4 (witness): instantiation of the amended theorem at the one-character
input `%`, where no rule matches. -/
theorem c4_lex_error_names_char_witness :
    tokenizeAux 1 ['%'] = .error ("Unknown character: ".push '%') :=
  c4_lex_error_names_char 0 '%' [] rfl

/-- C5: an empty bracket always parses to the distinguished `AST.NONE` node
(Python `None`, the node the specification calls `NoConstraint`): the
`token_constraint` production maps `[` `]` to it whatever tokens follow, and
the full pipeline does so for `[]` alone and for `[]` inside a larger
pattern. -/
theorem c5_empty_bracket_noconstraint :
    (∀ (f : Nat) (x y : String) (rest : List Token),
      tokenConstraint (f+1) (("LBRACKET", x) :: ("RBRACKET", y) :: rest) = .ok (.NONE, rest)) ∧
    parseTokenPatternTop "[]" = .ok .NONE ∧
    parseTokenPatternTop "[] []" = .ok (.SEQ [.NONE, .NONE]) := by
  refine ⟨?_, rfl, rfl⟩
  intro f x y rest
  rfl

/-- Helper: if the STRING rule fails, its bare-word alternative `\w+` failed. -/
lemma matchString_none_wordRun (cs : List Char) (h : matchString cs = none) :
    matchWordRun cs = none := by
  unfold matchString at h
  cases hq1 : matchQuoted '"' cs with
  | some r => simp [hq1] at h
  | none =>
    simp only [hq1] at h
    cases hq2 : matchQuoted squote cs with
    | some r => simp [hq2] at h
    | none => simpa only [hq2] using h

/-- Helper: a digit is a word character, so whenever the NUMBER rule could
match, the earlier STRING rule already matched: STRING failing forces NUMBER to
fail as well. -/
lemma matchString_none_no_digit (cs : List Char) (h : matchString cs = none) :
    matchNumber cs = none := by
  cases cs with
  | nil => rfl
  | cons c cs =>
    have hw : matchWordRun (c :: cs) = none := matchString_none_wordRun _ h
    have hwc : isWordChar c = false := by
      cases hwcb : isWordChar c with
      | false => rfl
      | true =>
        exfalso
        unfold matchWordRun at hw
        simp [List.takeWhile_cons, hwcb] at hw
    have hd : c.isDigit = false := by
      cases hdb : c.isDigit with
      | false => rfl
      | true =>
        exfalso
        have hx : isWordChar c = true := by
          unfold isWordChar Char.isAlphanum
          rw [hdb]
          simp
        rw [hx] at hwc
        exact Bool.noConfusion hwc
    unfold matchNumber
    simp [List.takeWhile_cons, hd]

/-- Helper: the CAPTURE_START rule `\(\?<` can only match where the earlier
LPAREN rule `\(` also matches. -/
lemma lparen_none_capture (cs : List Char) (h : matchChar '(' cs = none) :
    matchCaptureStart cs = none := by
  cases cs with
  | nil => rfl
  | cons c cs =>
    cases hc : (c == '(') with
    | true => simp [matchChar, hc] at h
    | false =>
      have hcc : ('(' == c) = false := by
        rw [beq_eq_false_iff_ne] at hc ⊢
        exact fun e => hc e.symm
      unfold matchCaptureStart matchLit
      simp [List.isPrefixOf, hcc]

/-- Helper: both LOOKAHEAD_START alternatives `\(\?=` and `\(\?!` can only
match where the earlier LPAREN rule `\(` also matches. -/
lemma lparen_none_lookahead (cs : List Char) (h : matchChar '(' cs = none) :
    matchLookaheadStart cs = none := by
  cases cs with
  | nil => rfl
  | cons c cs =>
    cases hc : (c == '(') with
    | true => simp [matchChar, hc] at h
    | false =>
      have hcc : ('(' == c) = false := by
        rw [beq_eq_false_iff_ne] at hc ⊢
        exact fun e => hc e.symm
      unfold matchLookaheadStart matchLit
      simp [List.isPrefixOf, hcc]

/-- Helper: under first-match-by-table-order lexing, the kinds NUMBER,
CAPTURE_START and LOOKAHEAD_START can never be the winning rule: an earlier
rule of the table matches whenever they would. -/
lemma firstMatch_kind (cs : List Char) (k : String) (lex : List Char)
    (h : firstMatch cs = some (k, lex)) :
    k ≠ "NUMBER" ∧ k ≠ "CAPTURE_START" ∧ k ≠ "LOOKAHEAD_START" := by
  unfold firstMatch TOKEN_TYPES at h
  simp only [firstMatchAux] at h
  repeat' split at h
  all_goals try exact Option.noConfusion h
  all_goals simp only [Option.some.injEq, Prod.mk.injEq] at h
  all_goals obtain ⟨rfl, -⟩ := h
  all_goals first
    | exact ⟨by decide, by decide, by decide⟩
    | simp_all [matchString_none_no_digit, lparen_none_capture, lparen_none_lookahead]

/-- Helper: every token emitted by `Lexer.tokenize` comes from `firstMatch`, so
no emitted token ever has kind NUMBER, CAPTURE_START or LOOKAHEAD_START. -/
lemma tokenizeAux_kinds : ∀ (f : Nat) (cs : List Char) (ts : List Token),
    tokenizeAux f cs = .ok ts → ∀ p ∈ ts,
    p.1 ≠ "NUMBER" ∧ p.1 ≠ "CAPTURE_START" ∧ p.1 ≠ "LOOKAHEAD_START" := by
  intro f
  induction f with
  | zero =>
    intro cs ts h p hp
    cases cs with
    | nil =>
      simp only [tokenizeAux] at h
      obtain rfl : ([] : List Token) = ts := by injection h
      simp at hp
    | cons c cs => simp [tokenizeAux] at h
  | succ f ih =>
    intro cs ts h p hp
    cases cs with
    | nil =>
      simp only [tokenizeAux] at h
      obtain rfl : ([] : List Token) = ts := by injection h
      simp at hp
    | cons c cs =>
      simp only [tokenizeAux] at h
      cases hfm : firstMatch (c :: cs) with
      | none => simp [hfm] at h
      | some kl =>
        obtain ⟨k2, lex⟩ := kl
        simp only [hfm] at h
        cases hrec : tokenizeAux f ((c :: cs).drop lex.length) with
        | error e => simp [hrec] at h
        | ok ts2 =>
          simp only [hrec] at h
          by_cases hk : k2 = "WHITESPACE"
          · subst hk
            simp only [if_pos rfl, beq_self_eq_true, if_true] at h
            obtain rfl : ts2 = ts := by injection h
            exact ih _ _ hrec p hp
          · have hkb : (k2 == "WHITESPACE") = false := by simp [hk]
            simp only [hkb, Bool.false_eq_true, if_false] at h
            obtain rfl : (k2, String.mk lex) :: ts2 = ts := by injection h
            rcases List.mem_cons.mp hp with hp1 | hp2
            · rw [hp1]
              exact firstMatch_kind _ _ _ hfm
            · exact ih _ _ hrec p hp2

/-- C3: under the first-match-by-table-order semantics of the lexer, no emitted
token ever has kind CAPTURE_START or LOOKAHEAD_START (any `(` is consumed by
the earlier LPAREN rule), and consequently the `capture_token_pattern`
production, whose first step must eat a CAPTURE_START token, fails on every
token list drawn from lexed input, so the capture syntax `(?<` can never be
parsed by the lex-then-parse pipeline. -/
theorem c3_capture_tokens_unreachable : ∀ (f : Nat) (cs : List Char) (ts : List Token),
    tokenizeAux f cs = .ok ts →
    (∀ p ∈ ts, p.1 ≠ "CAPTURE_START" ∧ p.1 ≠ "LOOKAHEAD_START") ∧
    (∀ (g : Nat) (ts2 : List Token), (∀ p ∈ ts2, p ∈ ts) →
      isOk (captureTokenPattern g ts2) = false) := by
  intro f cs ts h
  constructor
  · intro p hp
    exact ⟨(tokenizeAux_kinds f cs ts h p hp).2.1, (tokenizeAux_kinds f cs ts h p hp).2.2⟩
  · intro g ts2 hsub
    cases g with
    | zero => rfl
    | succ g =>
      cases ts2 with
      | nil => rfl
      | cons t ts3 =>
        obtain ⟨k, x⟩ := t
        have hk : k ≠ "CAPTURE_START" :=
          (tokenizeAux_kinds f cs ts h (k, x) (hsub _ (by simp))).2.1
        have hkb : (k == "CAPTURE_START") = false := by simp [hk]
        simp [captureTokenPattern, eat, hkb, isOk]

/-- C3 (witness): instantiation at the input `()`, whose tokens are LPAREN and
RPAREN; the capture production fails on that token list. -/
theorem c3_capture_tokens_unreachable_witness :
    isOk (captureTokenPattern 9 [("LPAREN", "("), ("RPAREN", ")")]) = false := by
  have h : tokenizeAux 3 ['(', ')'] = .ok [("LPAREN", "("), ("RPAREN", ")")] := rfl
  exact (c3_capture_tokens_unreachable 3 ['(', ')'] _ h).2 9 _ (fun p hp => hp)

/-- C10: the token sequence emitted by the lexer never contains a NUMBER token:
the STRING rule, tried earlier, matches every digit sequence via its bare-word
alternative `\w+`, so the NUMBER rule can never win. -/
theorem c10_no_number_tokens : ∀ (f : Nat) (cs : List Char) (ts : List Token),
    tokenizeAux f cs = .ok ts → ∀ p ∈ ts, p.1 ≠ "NUMBER" := by
  intro f cs ts h p hp
  exact (tokenizeAux_kinds f cs ts h p hp).1

/-- C10 (witness): the digit run `123` lexes as a single STRING token, and by
the theorem its kind is not NUMBER. -/
theorem c10_no_number_tokens_witness :
    tokenize "123" = .ok [("STRING", "123")] ∧
    (("STRING", "123") : Token).1 ≠ "NUMBER" := by
  refine ⟨rfl, ?_⟩
  have h : tokenizeAux 4 ("123".toList) = .ok [("STRING", "123")] := rfl
  exact c10_no_number_tokens 4 _ _ h ("STRING", "123") (by simp)

/-- Helper: a word character is not whitespace. -/
lemma wordChar_not_spaceChar (c : Char) (h : isWordChar c = true) : isSpaceChar c = false := by
  cases hs : isSpaceChar c with
  | false => rfl
  | true =>
    exfalso
    simp only [isSpaceChar, Bool.or_eq_true, beq_iff_eq] at hs
    rcases hs with ((((h1 | h1) | h1) | h1) | h1) | h1 <;> subst h1 <;>
      exact absurd h (by decide)

/-- Helper: a word character differs from any non-word character. -/
lemma wordChar_beq_false (c d : Char) (h : isWordChar c = true) (hd : isWordChar d = false) :
    (c == d) = false := by
  rw [beq_eq_false_iff_ne]
  intro e
  subst e
  rw [h] at hd
  exact Bool.noConfusion hd

/-- C6 (amended): a bare word all of whose characters are word characters and
on which the WORD rule fails (no field keyword is a prefix of it) lexes as a
single STRING token holding exactly that word. -/
theorem c6_bare_word_single_string : ∀ (w : List Char), w ≠ [] →
    (∀ c ∈ w, isWordChar c = true) → matchWord w = none →
    tokenizeAux (w.length + 1) w = .ok [("STRING", String.mk w)] := by
  intro w hne hall hkw
  obtain ⟨c, w2, rfl⟩ : ∃ c w2, w = c :: w2 := by
    cases w with
    | nil => exact absurd rfl hne
    | cons a l => exact ⟨a, l, rfl⟩
  have hc : isWordChar c = true := hall c (by simp)
  have hws : matchWhitespace (c :: w2) = none := by
    unfold matchWhitespace
    simp [List.takeWhile_cons, wordChar_not_spaceChar c hc]
  have hch : ∀ d : Char, isWordChar d = false → matchChar d (c :: w2) = none := by
    intro d hd
    simp [matchChar, wordChar_beq_false c d hc hd]
  have hq1 : matchQuoted '"' (c :: w2) = none := by
    simp [matchQuoted, wordChar_beq_false c '"' hc (by decide)]
  have hq2 : matchQuoted squote (c :: w2) = none := by
    simp [matchQuoted, wordChar_beq_false c squote hc (by decide)]
  have hwr : matchWordRun (c :: w2) = some (c :: w2) := by
    unfold matchWordRun
    rw [List.takeWhile_eq_self_iff.mpr (by simpa using hall)]
  have hstr : matchString (c :: w2) = some (c :: w2) := by
    unfold matchString
    simp [hq1, hq2, hwr]
  have hfm : firstMatch (c :: w2) = some ("STRING", c :: w2) := by
    unfold firstMatch TOKEN_TYPES
    simp only [firstMatchAux]
    simp [hws, hch '[' (by decide), hch ']' (by decide), hch '(' (by decide),
      hch ')' (by decide), hch '&' (by decide), hch '|' (by decide), hch '!' (by decide),
      hch '=' (by decide), hch '*' (by decide), hch '+' (by decide), hch '?' (by decide),
      hkw, hstr]
  show tokenizeAux ((c :: w2).length + 1) (c :: w2) = .ok [("STRING", String.mk (c :: w2))]
  simp only [tokenizeAux, hfm, List.drop_length]
  rfl

/-- C6 (counterexample): the bare words `wordy` and `mention` begin with (or
equal) a field keyword, so the WORD rule, tried before STRING, wins: `wordy`
lexes as a WORD token `word` followed by a STRING token `y`, and `mention`
lexes as a single WORD token, not a STRING token. -/
theorem c6_keyword_prefix_counterexample :
    tokenize "wordy" = .ok [("WORD", "word"), ("STRING", "y")] ∧
    tokenize "mention" = .ok [("WORD", "mention")] ∧
    tokenize "wordy" ≠ .ok [("STRING", "wordy")] := by
  refine ⟨rfl, rfl, ?_⟩
  intro h
  rw [show tokenize "wordy" = .ok [("WORD", "word"), ("STRING", "y")] from rfl] at h
  injection h with h2
  exact absurd h2 (by decide)

/-- C6 (witness): instantiation of the amended theorem at the bare word
`hello`, which no field keyword prefixes. -/
theorem c6_bare_word_single_string_witness :
    tokenizeAux 6 ['h', 'e', 'l', 'l', 'o'] =
      .ok [("STRING", String.mk ['h', 'e', 'l', 'l', 'o'])] :=
  c6_bare_word_single_string ['h', 'e', 'l', 'l', 'o'] (by decide) (by decide) (by decide)

/-- Helper: the OR loop of `disjunctive_constraint` stops and returns its
accumulated node when the next token is not OR. -/
lemma disjLoop_stop (f : Nat) (l : AST) (rest : List Token)
    (h : headIsKind "OR" rest = false) : disjLoop (f+1) l rest = .ok (l, rest) := by
  cases rest with
  | nil => rfl
  | cons t r =>
    obtain ⟨k, x⟩ := t
    simp only [headIsKind] at h
    simp [disjLoop, h]

/-- Helper: the AND loop of `conjunctive_constraint` stops and returns its
accumulated node when the next token is not AND. -/
lemma conjLoop_stop (f : Nat) (l : AST) (rest : List Token)
    (h : headIsKind "AND" rest = false) : conjLoop (f+1) l rest = .ok (l, rest) := by
  cases rest with
  | nil => rfl
  | cons t r =>
    obtain ⟨k, x⟩ := t
    simp only [headIsKind] at h
    simp [conjLoop, h]

/-- Helper: the OR loop of `disjunctive_token_pattern` stops and returns its
accumulated node when the next token is not OR. -/
lemma disjTPLoop_stop (f : Nat) (l : AST) (rest : List Token)
    (h : headIsKind "OR" rest = false) : disjTPLoop (f+1) l rest = .ok (l, rest) := by
  cases rest with
  | nil => rfl
  | cons t r =>
    obtain ⟨k, x⟩ := t
    simp only [headIsKind] at h
    simp [disjTPLoop, h]

/-- C7: every three-operand chain at one precedence level folds
left-associatively: OR chains in the constraint grammar give Or(Or(a,b),c),
AND chains give And(And(a,b),c), and OR chains at the pattern level give
Or(Or(a,b),c); never the right-nested form. -/
theorem c7_binary_ops_left_assoc :
    (∀ (f : Nat) (ts ts2 ts3 rest : List Token) (a b c : AST) (x y : String),
      conjunctiveConstraint (f+3) ts = .ok (a, ("OR", x) :: ts2) →
      conjunctiveConstraint (f+2) ts2 = .ok (b, ("OR", y) :: ts3) →
      conjunctiveConstraint (f+1) ts3 = .ok (c, rest) →
      headIsKind "OR" rest = false →
      disjunctiveConstraint (f+4) ts = .ok (.OR (.OR a b) c, rest)) ∧
    (∀ (f : Nat) (ts ts2 ts3 rest : List Token) (a b c : AST) (x y : String),
      negatedConstraint (f+3) ts = .ok (a, ("AND", x) :: ts2) →
      negatedConstraint (f+2) ts2 = .ok (b, ("AND", y) :: ts3) →
      negatedConstraint (f+1) ts3 = .ok (c, rest) →
      headIsKind "AND" rest = false →
      conjunctiveConstraint (f+4) ts = .ok (.AND (.AND a b) c, rest)) ∧
    (∀ (f : Nat) (ts ts2 ts3 rest : List Token) (a b c : AST) (x y : String),
      concatenatedTokenPattern (f+3) ts = .ok (a, ("OR", x) :: ts2) →
      concatenatedTokenPattern (f+2) ts2 = .ok (b, ("OR", y) :: ts3) →
      concatenatedTokenPattern (f+1) ts3 = .ok (c, rest) →
      headIsKind "OR" rest = false →
      disjunctiveTokenPattern (f+4) ts = .ok (.OR (.OR a b) c, rest)) := by
  refine ⟨?_, ?_, ?_⟩
  · intro f ts ts2 ts3 rest a b c x y h1 h2 h3 h4
    simp only [disjunctiveConstraint, h1, disjLoop, beq_self_eq_true, if_true, h2, h3]
    exact disjLoop_stop f _ rest h4
  · intro f ts ts2 ts3 rest a b c x y h1 h2 h3 h4
    simp only [conjunctiveConstraint, h1, conjLoop, beq_self_eq_true, if_true, h2, h3]
    exact conjLoop_stop f _ rest h4
  · intro f ts ts2 ts3 rest a b c x y h1 h2 h3 h4
    simp only [disjunctiveTokenPattern, h1, disjTPLoop, beq_self_eq_true, if_true, h2, h3]
    exact disjTPLoop_stop f _ rest h4

/-- C7 (witness): concrete three-operand chains.  The constraint chain
`word=a | word=b | word=c` parses to Or(Or(..),..), the chain
`word=a & word=b & word=c` parses to And(And(..),..), and the pattern chain
`[] | [] | []` parses to Or(Or(..),..). -/
theorem c7_binary_ops_left_assoc_witness :
    disjunctiveConstraint 6
      [("WORD", "word"), ("EQUALS", "="), ("STRING", "a"), ("OR", "|"),
       ("WORD", "word"), ("EQUALS", "="), ("STRING", "b"), ("OR", "|"),
       ("WORD", "word"), ("EQUALS", "="), ("STRING", "c")] =
      .ok (.OR (.OR (.FIELD "word" (.EXACT "a")) (.FIELD "word" (.EXACT "b")))
        (.FIELD "word" (.EXACT "c")), []) ∧
    conjunctiveConstraint 5
      [("WORD", "word"), ("EQUALS", "="), ("STRING", "a"), ("AND", "&"),
       ("WORD", "word"), ("EQUALS", "="), ("STRING", "b"), ("AND", "&"),
       ("WORD", "word"), ("EQUALS", "="), ("STRING", "c")] =
      .ok (.AND (.AND (.FIELD "word" (.EXACT "a")) (.FIELD "word" (.EXACT "b")))
        (.FIELD "word" (.EXACT "c")), []) ∧
    disjunctiveTokenPattern 7
      [("LBRACKET", "["), ("RBRACKET", "]"), ("OR", "|"),
       ("LBRACKET", "["), ("RBRACKET", "]"), ("OR", "|"),
       ("LBRACKET", "["), ("RBRACKET", "]")] =
      .ok (.OR (.OR .NONE .NONE) .NONE, []) := by
  refine ⟨?_, ?_, ?_⟩
  · exact c7_binary_ops_left_assoc.1 2 _
      [("WORD", "word"), ("EQUALS", "="), ("STRING", "b"), ("OR", "|"),
       ("WORD", "word"), ("EQUALS", "="), ("STRING", "c")]
      [("WORD", "word"), ("EQUALS", "="), ("STRING", "c")] []
      (.FIELD "word" (.EXACT "a")) (.FIELD "word" (.EXACT "b"))
      (.FIELD "word" (.EXACT "c")) "|" "|" rfl rfl rfl rfl
  · exact c7_binary_ops_left_assoc.2.1 1 _
      [("WORD", "word"), ("EQUALS", "="), ("STRING", "b"), ("AND", "&"),
       ("WORD", "word"), ("EQUALS", "="), ("STRING", "c")]
      [("WORD", "word"), ("EQUALS", "="), ("STRING", "c")] []
      (.FIELD "word" (.EXACT "a")) (.FIELD "word" (.EXACT "b"))
      (.FIELD "word" (.EXACT "c")) "&" "&" rfl rfl rfl rfl
  · exact c7_binary_ops_left_assoc.2.2 3 _
      [("LBRACKET", "["), ("RBRACKET", "]"), ("OR", "|"),
       ("LBRACKET", "["), ("RBRACKET", "]")]
      [("LBRACKET", "["), ("RBRACKET", "]")] []
      .NONE .NONE .NONE "|" "|" rfl rfl rfl rfl

/-- C8: negation binds tighter than conjunction: parsing `! a & b` (a atomic,
b a negated-or-atomic operand) yields And(Not(a), b), never Not(And(a, b)); and
whenever `negated_constraint` sees a NOT token, the operand of the NOT node it
returns is exactly the result of `atomic_constraint`, a single atomic
constraint. -/
theorem c8_negation_binds_tighter :
    (∀ (f : Nat) (ts1 ts2 rest : List Token) (a b : AST) (x y : String),
      atomicConstraint (f+1) ts1 = .ok (a, ("AND", x) :: ts2) →
      negatedConstraint (f+1) ts2 = .ok (b, rest) →
      headIsKind "AND" rest = false →
      conjunctiveConstraint (f+3) (("NOT", y) :: ts1) = .ok (.AND (.NOT a) b, rest)) ∧
    (∀ (f : Nat) (ts rest : List Token) (r : AST) (y : String),
      negatedConstraint (f+1) (("NOT", y) :: ts) = .ok (r, rest) →
      ∃ a, r = .NOT a ∧ atomicConstraint f ts = .ok (a, rest)) := by
  constructor
  · intro f ts1 ts2 rest a b x y h1 h2 h3
    have step1 : negatedConstraint (f+2) (("NOT", y) :: ts1) = .ok (.NOT a, ("AND", x) :: ts2) := by
      simp only [negatedConstraint, beq_self_eq_true, if_true, h1]
    simp only [conjunctiveConstraint, step1, conjLoop, beq_self_eq_true, if_true, h2]
    exact conjLoop_stop f _ rest h3
  · intro f ts rest r y h
    simp only [negatedConstraint, beq_self_eq_true, if_true] at h
    cases ha : atomicConstraint f ts with
    | error e => simp [ha] at h
    | ok p =>
      obtain ⟨a, ts1⟩ := p
      simp only [ha, Except.ok.injEq, Prod.mk.injEq] at h
      obtain ⟨rfl, rfl⟩ := h
      exact ⟨a, rfl, rfl⟩

/-- C8 (witness): parsing the constraint body `! word=a & word=b` yields
And(Not(Field word a), Field word b). -/
theorem c8_negation_binds_tighter_witness :
    conjunctiveConstraint 4
      [("NOT", "!"), ("WORD", "word"), ("EQUALS", "="), ("STRING", "a"), ("AND", "&"),
       ("WORD", "word"), ("EQUALS", "="), ("STRING", "b")] =
      .ok (.AND (.NOT (.FIELD "word" (.EXACT "a"))) (.FIELD "word" (.EXACT "b")), []) :=
  c8_negation_binds_tighter.1 1
    [("WORD", "word"), ("EQUALS", "="), ("STRING", "a"), ("AND", "&"),
     ("WORD", "word"), ("EQUALS", "="), ("STRING", "b")]
    [("WORD", "word"), ("EQUALS", "="), ("STRING", "b")] []
    (.FIELD "word" (.EXACT "a")) (.FIELD "word" (.EXACT "b")) "&" "!" rfl rfl rfl

/-- C9: concatenation collapse.  When exactly one quantified atomic pattern is
collected, `concatenated_token_pattern` returns that element with no SEQ
wrapper; when a second one is collected the result is a SEQ node holding
exactly the collected nodes in left-to-right source order; and in general the
collection loop only appends to the right of what was already collected,
stopping exactly when the lookahead token cannot start another element. -/
theorem c9_sequence_collapse :
    (∀ (f : Nat) (ts rest : List Token) (p : AST),
      quantifiedTokenPattern (f+1) ts = .ok (p, rest) → startsAtomic rest = false →
      concatenatedTokenPattern (f+2) ts = .ok (p, rest)) ∧
    (∀ (f : Nat) (ts ts1 ts2 : List Token) (p1 p2 : AST),
      quantifiedTokenPattern (f+2) ts = .ok (p1, ts1) → startsAtomic ts1 = true →
      quantifiedTokenPattern (f+1) ts1 = .ok (p2, ts2) → startsAtomic ts2 = false →
      concatenatedTokenPattern (f+3) ts = .ok (.SEQ [p1, p2], ts2)) ∧
    (∀ (f : Nat) (acc : List AST) (ts : List Token) (ps : List AST) (rest : List Token),
      concatGather f acc ts = .ok (ps, rest) →
      ∃ qs, ps = acc ++ qs ∧ startsAtomic rest = false) := by
  refine ⟨?_, ?_, ?_⟩
  · intro f ts rest p h1 h2
    have g1 : concatGather (f+1) [p] rest = .ok ([p], rest) := by
      simp only [concatGather, h2, Bool.false_eq_true, if_false]
    simp only [concatenatedTokenPattern, h1, g1]
  · intro f ts ts1 ts2 p1 p2 h1 h2 h3 h4
    have g1 : concatGather (f+2) [p1] ts1 = .ok ([p1, p2], ts2) := by
      simp only [concatGather, h2, if_true, h3, h4, Bool.false_eq_true, if_false,
        List.cons_append, List.nil_append]
    simp only [concatenatedTokenPattern, h1, g1]
  · intro f
    induction f with
    | zero =>
      intro acc ts ps rest h
      simp [concatGather] at h
    | succ f ih =>
      intro acc ts ps rest h
      simp only [concatGather] at h
      cases hs : startsAtomic ts with
      | true =>
        simp only [hs, if_true] at h
        cases hq : quantifiedTokenPattern f ts with
        | error e => simp [hq] at h
        | ok p =>
          obtain ⟨p1, ts1⟩ := p
          simp only [hq] at h
          obtain ⟨qs, hps, hrest⟩ := ih (acc ++ [p1]) ts1 ps rest h
          exact ⟨p1 :: qs, by rw [hps, List.append_assoc]; rfl, hrest⟩
      | false =>
        simp only [hs, Bool.false_eq_true, if_false, Except.ok.injEq, Prod.mk.injEq] at h
        obtain ⟨rfl, rfl⟩ := h
        exact ⟨[], by simp, hs⟩

/-- C9 (witness): the single-element concatenation `[]` returns NONE with no
SEQ wrapper, and the two-element concatenation `[] []` returns exactly
SEQ [NONE, NONE]. -/
theorem c9_sequence_collapse_witness :
    concatenatedTokenPattern 4 [("LBRACKET", "["), ("RBRACKET", "]")] = .ok (.NONE, []) ∧
    concatenatedTokenPattern 5
      [("LBRACKET", "["), ("RBRACKET", "]"), ("LBRACKET", "["), ("RBRACKET", "]")] =
      .ok (.SEQ [.NONE, .NONE], []) := by
  constructor
  · exact c9_sequence_collapse.1 2 [("LBRACKET", "["), ("RBRACKET", "]")] [] .NONE rfl rfl
  · exact c9_sequence_collapse.2.1 2
      [("LBRACKET", "["), ("RBRACKET", "]"), ("LBRACKET", "["), ("RBRACKET", "]")]
      [("LBRACKET", "["), ("RBRACKET", "]")] [] .NONE .NONE rfl rfl rfl rfl
